import Mathlib

/-!
Verification of the AccelByte IAM Go SDK default client
(`defaultclient.go`) against its natural-language specification.

The embedding is shallow: Go strings become `String` manipulated through
their character lists, Go `time.Duration` fields become `Int` counts of
seconds, Go maps iterated with `range` become association lists, and the
out-of-repository collaborators (HTTP fetches, JWT signature checking)
become oracle fields of the client state.  Fallible Go functions
returning `(T, error)` become `Except String T` or `T × Option String`.
-/

set_option autoImplicit false

namespace IAM

/-! ## String helpers

`replaceFirst` models Go `strings.Replace(s, pat, rep, 1)`: at most one
occurrence (the leftmost) of `pat` is replaced by `rep`.  With an empty
pattern Go inserts `rep` before the first character, which the `[]` and
prefix cases reproduce.  `replaceAllFuel` models
`strings.Replace(s, pat, rep, -1)` for a nonempty pattern: every
non-overlapping occurrence is replaced, scanning left to right without
rescanning replaced text; the fuel argument (instantiated with the length
of the subject) makes the recursion structural. -/

def replaceFirst (pat rep : List Char) : List Char → List Char
  | [] => if pat = [] then rep else []
  | c :: rest =>
    if pat.isPrefixOf (c :: rest) then rep ++ (c :: rest).drop pat.length
    else c :: replaceFirst pat rep rest

def replaceAllFuel (pat rep : List Char) : Nat → List Char → List Char
  | 0, s => s
  | _ + 1, [] => []
  | fuel + 1, c :: rest =>
    if pat ≠ [] ∧ pat.isPrefixOf (c :: rest) then
      rep ++ replaceAllFuel pat rep fuel ((c :: rest).drop pat.length)
    else c :: replaceAllFuel pat rep fuel rest

def replaceAll (pat rep s : List Char) : List Char :=
  replaceAllFuel pat rep s.length s

/-- Go `strings.Replace(s, pat, rep, 1)` lifted to `String`. -/
def replaceFirstStr (s pat rep : String) : String :=
  ⟨replaceFirst pat.data rep.data s.data⟩

/-- Go `strings.Replace(s, pat, rep, -1)` lifted to `String`. -/
def replaceAllStr (s pat rep : String) : String :=
  ⟨replaceAll pat.data rep.data s.data⟩

/-- `hasSub pat s` decides whether `pat` occurs as a contiguous substring
of `s` (true at the empty pattern, which is a prefix of everything). -/
def hasSub (pat : List Char) : List Char → Bool
  | [] => pat = []
  | c :: rest => pat.isPrefixOf (c :: rest) || hasSub pat rest

/-- Substring occurrence lifted to `String`. -/
def hasSubStr (s pat : String) : Bool :=
  hasSub pat.data s.data

/-- Splitting a resource string at each colon, as Go
`strings.Split(s, ":")` does: `n` colons yield `n + 1` segments. -/
def splitSegs : List Char → List (List Char)
  | [] => [[]]
  | c :: rest =>
    if c = ':' then [] :: splitSegs rest
    else
      match splitSegs rest with
      | [] => [[c]]
      | seg :: segs => (c :: seg) :: segs

/-! ## Data model (`Permission`, `JWTClaims`, `Config`) -/

/-- A permission: resource pattern plus action bitmask
(from the SDK data model used by `defaultclient.go`). -/
structure Permission where
  Resource : String
  Action : Nat
  deriving Repr, DecidableEq

/-- The claim fields `defaultclient.go` reads: subject, issued-at,
namespace, role identifiers, direct permissions and optional audience.
The audience is `none` when the token carries no audience field. -/
structure JWTClaims where
  Subject : String
  IssuedAt : Int
  Namespace : String
  Roles : List String
  Permissions : List Permission
  Audience : Option (List String)
  deriving Repr, DecidableEq

/-- IAM configuration (`Config` in `defaultclient.go`); the three
durations are in seconds, as `Int` so that non-positive values exist. -/
structure Config where
  BaseURL : String
  ClientID : String
  ClientSecret : String
  RolesCacheExpirationTime : Int
  JWKSRefreshInterval : Int
  RevocationListRefreshInterval : Int
  deriving Repr, DecidableEq

/-- `defaultRoleCacheTime`, `defaultJWKSRefreshInterval` and
`defaultRevocationListRefreshInterval` are all 60 seconds. -/
def defaultIntervalSeconds : Int := 60

/-- The effect of `NewDefaultClient` on the caller-supplied `Config`
(the Go function receives a pointer and assigns defaulted fields through
it): each non-positive duration is overwritten with the 60-second
default; nothing else of the struct is touched. -/
def newDefaultClientConfig (config : Config) : Config :=
  let c1 := if config.RolesCacheExpirationTime ≤ 0 then
    { config with RolesCacheExpirationTime := defaultIntervalSeconds } else config
  let c2 := if c1.JWKSRefreshInterval ≤ 0 then
    { c1 with JWKSRefreshInterval := defaultIntervalSeconds } else c1
  if c2.RevocationListRefreshInterval ≤ 0 then
    { c2 with RevocationListRefreshInterval := defaultIntervalSeconds } else c2

/-! ## Permission matching and resolution -/

/-- Modelled from the spec: the segment-matching rule of
`permissionAllowed` (the helper lives outside `defaultclient.go`): the
two colon-split resources must have equally many segments and each
granted segment must equal the required one or be the wildcard `*`;
the granted action mask must contain every required action bit. -/
def permissionMatches (granted required : Permission) : Bool :=
  let gs := splitSegs granted.Resource.data
  let rs := splitSegs required.Resource.data
  gs.length = rs.length
    && (List.zip gs rs).all (fun p => p.1 = ['*'] || p.1 = p.2)
    && Nat.land required.Action granted.Action = required.Action

/-- Modelled from the spec: `permissionAllowed(grantedPermissions,
requiredPermission)` is true when some granted permission matches. -/
def permissionAllowed (grantedPermissions : List Permission)
    (requiredPermission : Permission) : Bool :=
  grantedPermissions.any (fun g => permissionMatches g requiredPermission)

/-- Modelled from the spec: `applyUserPermissionResourceValues` (outside
`defaultclient.go`) substitutes contextual placeholders into each
role-granted permission: every occurrence of the user-id placeholder
becomes the subject and of the namespace placeholder the namespace of
the token itself. -/
def applyUserPermissionResourceValues (grantedPermissions : List Permission)
    (claims : JWTClaims) : List Permission :=
  grantedPermissions.map (fun p =>
    { p with Resource :=
        (replaceAllStr (replaceAllStr p.Resource "{userId}" claims.Subject)
          "{namespace}" claims.Namespace) })

/-- Outcome of one role-permission fetch (`getRolePermission`): the
role's granted permissions, the distinguished role-not-found result
(the `errRoleNotFound` sentinel), or any other fetch error. -/
inductive FetchResult where
  | found (perms : List Permission)
  | notFound
  | fetchError (msg : String)
  deriving Repr, DecidableEq

/-- The substitution loop of `ValidatePermission` (lines 191-193):
`strings.Replace(resource, placeholder, value, 1)` folded over the
bindings, so each binding rewrites only the first occurrence of its
placeholder. -/
def applyBindings (permissionResources : List (String × String))
    (resource : String) : String :=
  permissionResources.foldl (fun res pv => replaceFirstStr res pv.1 pv.2) resource

/-- The role loop of `ValidatePermission` (lines 197-209), instrumented:
besides the `(bool, error)` result it returns the list of role
identifiers whose permissions were actually fetched.  A not-found role
is skipped, any other fetch error aborts with `(false, err)`, a granted
permission set is contextualised and tested; first match wins. -/
def checkRoles (fetch : String → FetchResult) (claims : JWTClaims)
    (required : Permission) : List String → (Bool × Option String) × List String
  | [] => ((false, none), [])
  | roleID :: rest =>
    match fetch roleID with
    | .notFound =>
      let r := checkRoles fetch claims required rest
      (r.1, roleID :: r.2)
    | .fetchError msg => ((false, some msg), [roleID])
    | .found perms =>
      if permissionAllowed (applyUserPermissionResourceValues perms claims) required then
        ((true, none), [roleID])
      else
        let r := checkRoles fetch claims required rest
        (r.1, roleID :: r.2)

/-- `ValidatePermission` (lines 186-211), instrumented with the list of
roles fetched: nil claims deny without error; otherwise the bindings are
applied to the required resource, the direct permissions are tested
first (short-circuiting), and only then the roles are walked. -/
def validatePermissionTrace (fetch : String → FetchResult)
    (claims : Option JWTClaims) (requiredPermission : Permission)
    (permissionResources : List (String × String)) :
    (Bool × Option String) × List String :=
  match claims with
  | none => ((false, none), [])
  | some c =>
    let substituted := { requiredPermission with
      Resource := applyBindings permissionResources requiredPermission.Resource }
    if permissionAllowed c.Permissions substituted then ((true, none), [])
    else checkRoles fetch c substituted c.Roles

/-- `ValidatePermission` proper: the result component of the
instrumented version. -/
def validatePermission (fetch : String → FetchResult)
    (claims : Option JWTClaims) (requiredPermission : Permission)
    (permissionResources : List (String × String)) : Bool × Option String :=
  (validatePermissionTrace fetch claims requiredPermission permissionResources).1

/-! ## Client state and the validator -/

/-- The `DefaultClient` fields the verified operations read, with the
out-of-repository collaborators as oracles: `validateJWTF` stands for
the signature-verifying `validateJWT` helper, `tokenRevokedF` for the
bloom-filter membership test, `revokedUsers` is the exact
subject-to-revocation-timestamp map (an association list, first hit
wins), `baseURICache` holds the cached registered base URI when present
and `getClientInfoF` is the outcome a client-information fetch would
produce.  The three error slots and the two activity flags are the
fields `HealthCheck` and `ValidateAndParseClaims` consult. -/
structure ClientState where
  localValidationActive : Bool
  revokedUsers : List (String × Int)
  tokenRevokedF : String → Bool
  validateJWTF : String → Except String JWTClaims
  jwksRefreshError : Option String
  revocationListRefreshError : Option String
  tokenRefreshError : Option String
  tokenRefreshActive : Bool
  baseURICache : Option String
  getClientInfoF : Except String String

/-- First-match lookup in the revoked-subject association list,
modelling Go map indexing `client.revokedUsers[userID]`. -/
def lookupRevoked : List (String × Int) → String → Option Int
  | [], _ => none
  | (k, t) :: rest, userID => if k = userID then some t else lookupRevoked rest userID

/-- Modelled from the spec: `userRevoked` (outside `defaultclient.go`)
reports a subject revoked when a revocation timestamp is recorded for
it and that timestamp is at least the issued-at time of the token
(subject-level rule: revocation timestamp greater than or equal to
issued-at fails the token). -/
def userRevoked (st : ClientState) (userID : String) (issuedAt : Int) : Bool :=
  match lookupRevoked st.revokedUsers userID with
  | none => false
  | some timeRevoked => issuedAt ≤ timeRevoked

/-- The not-activated error message of `ValidateAndParseClaims`. -/
def notActivatedMsg : String :=
  "local validation is not active, activate by calling StartLocalValidation()"

/-- The user-revoked error message of `ValidateAndParseClaims`. -/
def userRevokedMsg : String := "user has been revoked"

/-- The token-revoked error message of `ValidateAndParseClaims`. -/
def tokenRevokedMsg : String := "token has been revoked"

/-- `ValidateAndParseClaims` (lines 162-179): refuse when local
validation is not active, verify the JWT, then the two revocation
tiers; on success hand back the parsed claims. -/
def validateAndParseClaims (st : ClientState) (accessToken : String) :
    Except String JWTClaims :=
  if !st.localValidationActive then .error notActivatedMsg
  else
    match st.validateJWTF accessToken with
    | .error e => .error ("unable to verify JWT : " ++ e)
    | .ok claims =>
      if userRevoked st claims.Subject claims.IssuedAt then .error userRevokedMsg
      else if st.tokenRevokedF accessToken then .error tokenRevokedMsg
      else .ok claims

/-- `StartLocalValidation` (lines 138-154), with the outcomes of the
two initial fetches as oracle arguments (`none` meaning success): on
either failure the state is returned untouched together with the error;
on success the activation flag is set. -/
def startLocalValidation (st : ClientState)
    (jwksResult revocationListResult : Option String) :
    ClientState × Option String :=
  match jwksResult with
  | some e => (st, some ("unable to get JWKS: " ++ e))
  | none =>
    match revocationListResult with
    | some e => (st, some ("unable to get revocation list: " ++ e))
    | none => ({ st with localValidationActive := true }, none)

/-- `HealthCheck` (lines 252-263): healthy unless a key-refresh or
revocation-refresh error is recorded, or token refresh is active and a
token-refresh error is recorded. -/
def healthCheck (st : ClientState) : Bool :=
  if st.jwksRefreshError.isSome then false
  else if st.revocationListRefreshError.isSome then false
  else if st.tokenRefreshActive && st.tokenRefreshError.isSome then false
  else true

/-- The nil-claims error message of `ValidateAudience`. -/
def claimsNilMsg : String := "claims is nil"

/-- The mismatch error message of `ValidateAudience`. -/
def audienceMismatchMsg : String :=
  "audience doesn't match the client's base uri. access denied"

/-- The base URI `ValidateAudience` compares against: the cached value
when present, else whatever a `getClientInformation` fetch yields
(lines 275-285; a successful fetch stores the URI in the cache and
rereads it). -/
def baseURIResolved (st : ClientState) : Except String String :=
  match st.baseURICache with
  | some uri => .ok uri
  | none => st.getClientInfoF

/-- The audience loop of `ValidateAudience` (lines 287-299): a fetch
failure is returned as is, otherwise some audience entry must equal the
resolved base URI exactly. -/
def audienceCheck (st : ClientState) (audience : List String) : Option String :=
  match baseURIResolved st with
  | .error e => some e
  | .ok baseURI =>
    if audience.any (fun reqAud => reqAud = baseURI) then none
    else some audienceMismatchMsg

/-- `ValidateAudience` (lines 266-300): nil claims error out; a missing
audience is allowed with no fetch; otherwise the audience entries are
checked against the resolved base URI. -/
def validateAudience (st : ClientState) (claims : Option JWTClaims) :
    Option String :=
  match claims with
  | none => some claimsNilMsg
  | some c =>
    match c.Audience with
    | none => none
    | some audience => audienceCheck st audience

/-! ## Theorems for the claims -/

/-- When the pattern occurs in the subject, `replaceFirst` rewrites one
occurrence and copies the remainder of the subject verbatim. -/
theorem replaceFirst_decomp (pat rep : List Char) :
    ∀ s : List Char, hasSub pat s = true →
      ∃ pre suf, s = pre ++ pat ++ suf
        ∧ replaceFirst pat rep s = pre ++ rep ++ suf := by
  intro s
  induction s with
  | nil =>
    intro h
    have hpat : pat = [] := by simpa [hasSub] using h
    subst hpat
    exact ⟨[], [], rfl, by simp [replaceFirst]⟩
  | cons c rest ih =>
    intro h
    by_cases hp : pat.isPrefixOf (c :: rest) = true
    · rcases List.isPrefixOf_iff_prefix.mp hp with ⟨t, ht⟩
      refine ⟨[], t, by simp [ht.symm], ?_⟩
      have hdrop : (c :: rest).drop pat.length = t := by
        rw [← ht]
        exact List.drop_left pat t
      simp [replaceFirst, hp, hdrop]
    · have hrest : hasSub pat rest = true := by
        have := h
        unfold hasSub at this
        rcases Bool.or_eq_true_iff.mp this with h1 | h1
        · exact absurd h1 hp
        · exact h1
      rcases ih hrest with ⟨pre, suf, h1, h2⟩
      refine ⟨c :: pre, suf, by simp [h1], ?_⟩
      simp [replaceFirst, hp, h2]

/-- With a nonempty pattern that does not occur in the subject,
`replaceFirst` is the identity. -/
theorem replaceFirst_of_not_hasSub (pat rep : List Char) (hne : pat ≠ []) :
    ∀ s : List Char, hasSub pat s = false → replaceFirst pat rep s = s := by
  intro s
  induction s with
  | nil =>
    intro _
    simp [replaceFirst, hne]
  | cons c rest ih =>
    intro h
    unfold hasSub at h
    rcases Bool.or_eq_false_iff.mp h with ⟨h1, h2⟩
    simp [replaceFirst, h1, ih h2]

/-- Claim C1 fails on the code: `ValidatePermission` substitutes only
the first occurrence of each placeholder key (`strings.Replace` with
count 1), so a bound placeholder occurring twice survives substitution,
and a direct permission that the fully substituted resource would match
is not matched. -/
theorem validatePermission_substitution_counterexample :
    applyBindings [("{p}", "x")] "{p}:{p}" = "x:{p}"
      ∧ hasSubStr (applyBindings [("{p}", "x")] "{p}:{p}") "{p}" = true
      ∧ validatePermission (fun _ => FetchResult.notFound)
          (some { Subject := "u", IssuedAt := 0, Namespace := "n", Roles := []
                  Permissions := [{ Resource := "x:x", Action := 1 }]
                  Audience := none })
          { Resource := "{p}:{p}", Action := 1 } [("{p}", "x")]
        = (false, none)
      ∧ permissionAllowed [{ Resource := "x:x", Action := 1 }]
          { Resource := "x:x", Action := 1 } = true :=
  ⟨by decide, by decide, by decide, by decide⟩

/-- Claim C1 amended: before any matching, `ValidatePermission` rewrites
the required resource by folding the bindings with a first-occurrence
substitution: for each binding in turn, the leftmost occurrence of the
placeholder key (if any) is replaced by the bound value and the rest of
the string is kept verbatim, so later occurrences of the same key
remain; a binding whose key does not occur leaves the string unchanged. -/
theorem validatePermission_firstOccurrence_substitution
    (fetch : String → FetchResult) (claims : JWTClaims)
    (requiredPermission : Permission)
    (permissionResources : List (String × String)) (pat rep s : List Char) :
    (validatePermissionTrace fetch (some claims) requiredPermission
        permissionResources
      = validatePermissionTrace fetch (some claims)
          { requiredPermission with
            Resource := applyBindings permissionResources
              requiredPermission.Resource } [])
    ∧ (hasSub pat s = true →
        ∃ pre suf, s = pre ++ pat ++ suf
          ∧ replaceFirst pat rep s = pre ++ rep ++ suf)
    ∧ (pat ≠ [] → hasSub pat s = false → replaceFirst pat rep s = s) :=
  ⟨rfl, replaceFirst_decomp pat rep s,
    fun hne => replaceFirst_of_not_hasSub pat rep hne s⟩

theorem validatePermission_firstOccurrence_substitution_witness :
    (∃ pre suf, "a{p}b".data = pre ++ "{p}".data ++ suf
      ∧ replaceFirst "{p}".data "x".data "a{p}b".data = pre ++ "x".data ++ suf)
    ∧ replaceFirst "{q}".data "x".data "abc".data = "abc".data
    ∧ validatePermissionTrace (fun _ => FetchResult.notFound)
        (some { Subject := "u", IssuedAt := 0, Namespace := "n", Roles := []
                Permissions := [], Audience := none })
        { Resource := "{p}:{p}", Action := 1 } [("{p}", "x")]
      = validatePermissionTrace (fun _ => FetchResult.notFound)
          (some { Subject := "u", IssuedAt := 0, Namespace := "n", Roles := []
                  Permissions := [], Audience := none })
          { Resource := applyBindings [("{p}", "x")] "{p}:{p}", Action := 1 } [] :=
  ⟨(validatePermission_firstOccurrence_substitution (fun _ => FetchResult.notFound)
      { Subject := "u", IssuedAt := 0, Namespace := "n", Roles := []
        Permissions := [], Audience := none }
      { Resource := "{p}:{p}", Action := 1 } [("{p}", "x")]
      "{p}".data "x".data "a{p}b".data).2.1 (by decide),
    (validatePermission_firstOccurrence_substitution (fun _ => FetchResult.notFound)
      { Subject := "u", IssuedAt := 0, Namespace := "n", Roles := []
        Permissions := [], Audience := none }
      { Resource := "{p}:{p}", Action := 1 } [("{p}", "x")]
      "{q}".data "x".data "abc".data).2.2 (by decide) (by decide),
    (validatePermission_firstOccurrence_substitution (fun _ => FetchResult.notFound)
      { Subject := "u", IssuedAt := 0, Namespace := "n", Roles := []
        Permissions := [], Audience := none }
      { Resource := "{p}:{p}", Action := 1 } [("{p}", "x")]
      "{p}".data "x".data "a{p}b".data).1⟩

/-- Claim C2 fails on the code at the boundary: with the subject
revoked at timestamp 100 and a token issued exactly at 100 (and no
other failure possible), `ValidateAndParseClaims` rejects with the
user-revoked error, while the claim also promises acceptance whenever
issued-at is at least the revocation timestamp. -/
theorem validateAndParseClaims_boundary_counterexample :
    (ClientState.validateJWTF
        { localValidationActive := true
          revokedUsers := [("alice", 100)]
          tokenRevokedF := fun _ => false
          validateJWTF := fun _ =>
            .ok { Subject := "alice", IssuedAt := 100, Namespace := "ns"
                  Roles := [], Permissions := [], Audience := none }
          jwksRefreshError := none
          revocationListRefreshError := none
          tokenRefreshError := none
          tokenRefreshActive := false
          baseURICache := none
          getClientInfoF := .error "e" } "tok"
      = .ok { Subject := "alice", IssuedAt := 100, Namespace := "ns"
              Roles := [], Permissions := [], Audience := none })
    ∧ lookupRevoked [("alice", 100)] "alice" = some 100
    ∧ validateAndParseClaims
        { localValidationActive := true
          revokedUsers := [("alice", 100)]
          tokenRevokedF := fun _ => false
          validateJWTF := fun _ =>
            .ok { Subject := "alice", IssuedAt := 100, Namespace := "ns"
                  Roles := [], Permissions := [], Audience := none }
          jwksRefreshError := none
          revocationListRefreshError := none
          tokenRefreshError := none
          tokenRefreshActive := false
          baseURICache := none
          getClientInfoF := .error "e" } "tok"
      = .error userRevokedMsg :=
  ⟨rfl, by decide, rfl⟩

/-- Claim C2 amended (the helper `userRevoked` is modelled from the
subject-level rule of the spec): for a subject carrying revocation
timestamp T, a token with issued-at less than or equal to T is rejected
with the user-revoked error, and a token with issued-at strictly
greater than T is accepted when nothing else fails; the boundary
issued-at equal to T is thus rejected. -/
theorem validateAndParseClaims_userRevoked_spec (st : ClientState)
    (accessToken : String) (claims : JWTClaims) (timeRevoked : Int)
    (hact : st.localValidationActive = true)
    (hjwt : st.validateJWTF accessToken = .ok claims)
    (hrev : lookupRevoked st.revokedUsers claims.Subject = some timeRevoked) :
    (claims.IssuedAt ≤ timeRevoked →
      validateAndParseClaims st accessToken = .error userRevokedMsg)
    ∧ (timeRevoked < claims.IssuedAt → st.tokenRevokedF accessToken = false →
      validateAndParseClaims st accessToken = .ok claims) := by
  constructor
  · intro hle
    have hrevoked : userRevoked st claims.Subject claims.IssuedAt = true := by
      unfold userRevoked
      rw [hrev]
      simpa using hle
    unfold validateAndParseClaims
    rw [hact, hjwt]
    simp [hrevoked]
  · intro hlt htok
    have hrevoked : userRevoked st claims.Subject claims.IssuedAt = false := by
      unfold userRevoked
      rw [hrev]
      simpa using hlt
    unfold validateAndParseClaims
    rw [hact, hjwt]
    simp [hrevoked, htok]

theorem validateAndParseClaims_userRevoked_spec_witness :
    validateAndParseClaims
        { localValidationActive := true
          revokedUsers := [("alice", 100)]
          tokenRevokedF := fun _ => false
          validateJWTF := fun _ =>
            .ok { Subject := "alice", IssuedAt := 90, Namespace := "ns"
                  Roles := [], Permissions := [], Audience := none }
          jwksRefreshError := none
          revocationListRefreshError := none
          tokenRefreshError := none
          tokenRefreshActive := false
          baseURICache := none
          getClientInfoF := .error "e" } "tok"
      = .error userRevokedMsg
    ∧ validateAndParseClaims
        { localValidationActive := true
          revokedUsers := [("alice", 100)]
          tokenRevokedF := fun _ => false
          validateJWTF := fun _ =>
            .ok { Subject := "alice", IssuedAt := 150, Namespace := "ns"
                  Roles := [], Permissions := [], Audience := none }
          jwksRefreshError := none
          revocationListRefreshError := none
          tokenRefreshError := none
          tokenRefreshActive := false
          baseURICache := none
          getClientInfoF := .error "e" } "tok"
      = .ok { Subject := "alice", IssuedAt := 150, Namespace := "ns"
              Roles := [], Permissions := [], Audience := none } :=
  ⟨(validateAndParseClaims_userRevoked_spec _ "tok"
      { Subject := "alice", IssuedAt := 90, Namespace := "ns"
        Roles := [], Permissions := [], Audience := none } 100
      rfl rfl (by decide)).1 (by decide),
    (validateAndParseClaims_userRevoked_spec _ "tok"
      { Subject := "alice", IssuedAt := 150, Namespace := "ns"
        Roles := [], Permissions := [], Audience := none } 100
      rfl rfl (by decide)).2 (by decide) rfl⟩

/-- Claim C3: with nil claims, `ValidatePermission` answers `(false, nil)`
for every fetch oracle, required permission and bindings map, touching
no role fetch (empty trace): absence of claims is deny, not error. -/
theorem validatePermission_nilClaims_denies (fetch : String → FetchResult)
    (requiredPermission : Permission)
    (permissionResources : List (String × String)) :
    validatePermission fetch none requiredPermission permissionResources
        = (false, none)
      ∧ validatePermissionTrace fetch none requiredPermission permissionResources
        = ((false, none), []) :=
  ⟨rfl, rfl⟩

/-- Claim C5: when the bindings-substituted required permission is
allowed by the direct permissions of the claims, `ValidatePermission`
short-circuits to `(true, nil)` with an empty fetch trace, so no role
permission is fetched and the role cache is never touched. -/
theorem validatePermission_direct_shortCircuit (fetch : String → FetchResult)
    (claims : JWTClaims) (requiredPermission : Permission)
    (permissionResources : List (String × String))
    (h : permissionAllowed claims.Permissions
      { requiredPermission with
        Resource := applyBindings permissionResources requiredPermission.Resource }
      = true) :
    validatePermissionTrace fetch (some claims) requiredPermission
      permissionResources = ((true, none), []) := by
  unfold validatePermissionTrace
  simp [h]

theorem validatePermission_direct_shortCircuit_witness :
    permissionAllowed
        [{ Resource := "NAMESPACE:accel:USER:42", Action := 2 }]
        { Resource :=
            applyBindings [("{namespace}", "accel"), ("{userId}", "42")]
              "NAMESPACE:{namespace}:USER:{userId}",
          Action := 2 } = true
      ∧ validatePermissionTrace (fun _ => .fetchError "boom")
          (some { Subject := "u", IssuedAt := 0, Namespace := "ns",
                  Roles := ["admin"],
                  Permissions := [{ Resource := "NAMESPACE:accel:USER:42", Action := 2 }],
                  Audience := none })
          { Resource := "NAMESPACE:{namespace}:USER:{userId}", Action := 2 }
          [("{namespace}", "accel"), ("{userId}", "42")]
        = ((true, none), []) :=
  ⟨by decide,
    validatePermission_direct_shortCircuit (fun _ => .fetchError "boom")
      { Subject := "u", IssuedAt := 0, Namespace := "ns", Roles := ["admin"],
        Permissions := [{ Resource := "NAMESPACE:accel:USER:42", Action := 2 }],
        Audience := none }
      { Resource := "NAMESPACE:{namespace}:USER:{userId}", Action := 2 }
      [("{namespace}", "accel"), ("{userId}", "42")]
      (by decide)⟩

/-- Claim C10: `ValidateAudience` on nil claims errors out (it does not
skip), in contrast with the deny-without-error answer that
`ValidatePermission` gives to nil claims. -/
theorem validateAudience_nilClaims_errors (st : ClientState) :
    validateAudience st none = some claimsNilMsg
      ∧ ∀ (fetch : String → FetchResult) (requiredPermission : Permission)
          (permissionResources : List (String × String)),
          validatePermission fetch none requiredPermission permissionResources
            = (false, none) :=
  ⟨rfl, fun _ _ _ => rfl⟩

/-- Claim C8: `HealthCheck` is true exactly when no key-refresh error
and no revocation-refresh error is recorded and, in case bearer-token
refresh is active, no token-refresh error is recorded; with bearer
refresh inactive the token-refresh slot is ignored. -/
theorem healthCheck_spec (st : ClientState) :
    healthCheck st = true ↔
      (st.jwksRefreshError = none ∧ st.revocationListRefreshError = none ∧
        (st.tokenRefreshActive = true → st.tokenRefreshError = none)) := by
  unfold healthCheck
  rcases st with ⟨_, _, _, _, jE, rE, tE, tA, _, _⟩
  cases jE <;> cases rE <;> cases tE <;> cases tA <;> simp

theorem healthCheck_spec_witness :
    healthCheck
      { localValidationActive := false
        revokedUsers := []
        tokenRevokedF := fun _ => false
        validateJWTF := fun _ => .error "e"
        jwksRefreshError := none
        revocationListRefreshError := none
        tokenRefreshError := some "down"
        tokenRefreshActive := false
        baseURICache := none
        getClientInfoF := .error "e" } = true :=
  (healthCheck_spec _).mpr ⟨rfl, rfl, fun h => nomatch h⟩

/-- Claim C9: `NewDefaultClient` writes the 60-second default back into
each of the three non-positive duration fields of the caller-supplied
`Config` and leaves every other field of the struct unchanged. -/
theorem newDefaultClientConfig_spec (config : Config) :
    (newDefaultClientConfig config).RolesCacheExpirationTime
        = (if config.RolesCacheExpirationTime ≤ 0 then defaultIntervalSeconds
           else config.RolesCacheExpirationTime)
      ∧ (newDefaultClientConfig config).JWKSRefreshInterval
        = (if config.JWKSRefreshInterval ≤ 0 then defaultIntervalSeconds
           else config.JWKSRefreshInterval)
      ∧ (newDefaultClientConfig config).RevocationListRefreshInterval
        = (if config.RevocationListRefreshInterval ≤ 0 then defaultIntervalSeconds
           else config.RevocationListRefreshInterval)
      ∧ (newDefaultClientConfig config).BaseURL = config.BaseURL
      ∧ (newDefaultClientConfig config).ClientID = config.ClientID
      ∧ (newDefaultClientConfig config).ClientSecret = config.ClientSecret := by
  rcases config with ⟨b, ci, cs, r, j, rv⟩
  unfold newDefaultClientConfig
  by_cases hr : r ≤ 0 <;> by_cases hj : j ≤ 0 <;> by_cases hrv : rv ≤ 0 <;>
    simp [hr, hj, hrv]

/-- Claim C4: in the role loop of `ValidatePermission`, a role whose
fetch reports role-not-found is skipped (the result is that of the
remaining roles, no error surfaced), while any other fetch error aborts
at once with `(false, err)`; moreover when the direct-permission check
misses, `ValidatePermission` is exactly this loop over the roles of the
token with the substituted requirement. -/
theorem checkRoles_skip_and_abort (fetch : String → FetchResult)
    (claims : JWTClaims) (required : Permission) (roleID : String)
    (rest : List String) :
    (fetch roleID = .notFound →
      (checkRoles fetch claims required (roleID :: rest)).1
        = (checkRoles fetch claims required rest).1)
    ∧ (∀ msg, fetch roleID = .fetchError msg →
        checkRoles fetch claims required (roleID :: rest)
          = ((false, some msg), [roleID]))
    ∧ (∀ (requiredPermission : Permission)
          (permissionResources : List (String × String)),
        permissionAllowed claims.Permissions
          { requiredPermission with
            Resource := applyBindings permissionResources
              requiredPermission.Resource } = false →
        validatePermissionTrace fetch (some claims) requiredPermission
            permissionResources
          = checkRoles fetch claims
              { requiredPermission with
                Resource := applyBindings permissionResources
                  requiredPermission.Resource }
              claims.Roles) := by
  refine ⟨fun h => ?_, fun msg h => ?_, fun rp prs h => ?_⟩
  · simp [checkRoles, h]
  · simp [checkRoles, h]
  · unfold validatePermissionTrace
    simp only [h, Bool.false_eq_true, if_false]

theorem checkRoles_skip_and_abort_witness :
    (checkRoles (fun r => if r = "gone" then .notFound else .fetchError "boom")
        { Subject := "u", IssuedAt := 0, Namespace := "ns", Roles := []
          Permissions := [], Audience := none }
        { Resource := "a:b", Action := 1 } ["gone", "bad"]).1
      = (checkRoles (fun r => if r = "gone" then .notFound else .fetchError "boom")
          { Subject := "u", IssuedAt := 0, Namespace := "ns", Roles := []
            Permissions := [], Audience := none }
          { Resource := "a:b", Action := 1 } ["bad"]).1
    ∧ checkRoles (fun _ => .fetchError "boom")
        { Subject := "u", IssuedAt := 0, Namespace := "ns", Roles := []
          Permissions := [], Audience := none }
        { Resource := "a:b", Action := 1 } ["bad", "later"]
      = ((false, some "boom"), ["bad"]) :=
  ⟨(checkRoles_skip_and_abort
      (fun r => if r = "gone" then .notFound else .fetchError "boom")
      { Subject := "u", IssuedAt := 0, Namespace := "ns", Roles := []
        Permissions := [], Audience := none }
      { Resource := "a:b", Action := 1 } "gone" ["bad"]).1 (by decide),
    (checkRoles_skip_and_abort (fun _ => .fetchError "boom")
      { Subject := "u", IssuedAt := 0, Namespace := "ns", Roles := []
        Permissions := [], Audience := none }
      { Resource := "a:b", Action := 1 } "bad" ["later"]).2.1 "boom" rfl⟩

/-- Claim C6: while local validation is not activated (the flag only a
successful `StartLocalValidation` sets), `ValidateAndParseClaims`
returns no claims but the not-activated error, whatever the token and
whatever the signature or revocation oracles would say; and a
`StartLocalValidation` that returns an error leaves activation off. -/
theorem validateAndParseClaims_notActivated (st : ClientState)
    (accessToken : String) (h : st.localValidationActive = false) :
    validateAndParseClaims st accessToken = .error notActivatedMsg
      ∧ ∀ jwksResult revocationListResult,
          (startLocalValidation st jwksResult revocationListResult).2 ≠ none →
          ((startLocalValidation st jwksResult revocationListResult).1).localValidationActive
            = false := by
  constructor
  · unfold validateAndParseClaims
    rw [h]
    rfl
  · intro jwksResult revocationListResult hfail
    cases jwksResult with
    | some e => exact h
    | none =>
      cases revocationListResult with
      | some e => exact h
      | none => exact absurd rfl hfail

theorem validateAndParseClaims_notActivated_witness :
    validateAndParseClaims
      { localValidationActive := false
        revokedUsers := []
        tokenRevokedF := fun _ => true
        validateJWTF := fun _ =>
          .ok { Subject := "u", IssuedAt := 0, Namespace := "ns", Roles := []
                Permissions := [], Audience := none }
        jwksRefreshError := none
        revocationListRefreshError := none
        tokenRefreshError := none
        tokenRefreshActive := false
        baseURICache := none
        getClientInfoF := .error "e" } "token" = .error notActivatedMsg :=
  (validateAndParseClaims_notActivated _ "token" rfl).1

/-- Claim C7: `ValidateAudience` succeeds with no client-information
fetch when the claims carry no audience; when an audience set is
present and the registered base URI is obtainable (cached, or fetched
on the cache miss), it succeeds exactly when some audience entry equals
that URI, and answers the audience-mismatch error otherwise. -/
theorem validateAudience_spec (st : ClientState) (c : JWTClaims) :
    (c.Audience = none → validateAudience st (some c) = none)
    ∧ (∀ (audience : List String) (baseURI : String),
        c.Audience = some audience →
        (st.baseURICache = some baseURI ∨
          (st.baseURICache = none ∧ st.getClientInfoF = .ok baseURI)) →
        ((validateAudience st (some c) = none ↔ baseURI ∈ audience)
          ∧ (baseURI ∉ audience →
              validateAudience st (some c) = some audienceMismatchMsg))) := by
  rcases c with ⟨subj, iat, ns, roles, perms, aud⟩
  constructor
  · intro h
    have h2 : aud = none := h
    subst h2
    rfl
  · intro audience baseURI haud hsrc
    have h2 : aud = some audience := haud
    subst h2
    have hbase : baseURIResolved st = Except.ok baseURI := by
      unfold baseURIResolved
      rcases hsrc with h1 | ⟨h1, h2⟩
      · rw [h1]
      · rw [h1, h2]
    have hmain : validateAudience st
        (some { Subject := subj, IssuedAt := iat, Namespace := ns, Roles := roles
                Permissions := perms, Audience := some audience })
        = (if audience.any (fun reqAud => reqAud = baseURI) then none
           else some audienceMismatchMsg) := by
      show audienceCheck st audience = _
      unfold audienceCheck
      rw [hbase]
    by_cases hmem : baseURI ∈ audience
    · have hany : audience.any (fun reqAud => reqAud = baseURI) = true :=
        List.any_eq_true.mpr ⟨baseURI, hmem, by simp⟩
      rw [hmain, hany]
      simp [hmem]
    · have hany : audience.any (fun reqAud => reqAud = baseURI) = false := by
        apply List.any_eq_false.mpr
        intro x hx
        simp only [decide_eq_true_eq]
        intro he
        exact hmem (he ▸ hx)
      rw [hmain, hany]
      simp [hmem]

theorem validateAudience_spec_witness :
    validateAudience
        { localValidationActive := true
          revokedUsers := []
          tokenRevokedF := fun _ => false
          validateJWTF := fun _ => .error "e"
          jwksRefreshError := none
          revocationListRefreshError := none
          tokenRefreshError := none
          tokenRefreshActive := false
          baseURICache := some "https://svc.example.com"
          getClientInfoF := .error "e" }
        (some { Subject := "u", IssuedAt := 0, Namespace := "ns", Roles := []
                Permissions := [], Audience := some ["https://svc.example.com"] })
      = none
    ∧ validateAudience
        { localValidationActive := true
          revokedUsers := []
          tokenRevokedF := fun _ => false
          validateJWTF := fun _ => .error "e"
          jwksRefreshError := none
          revocationListRefreshError := none
          tokenRefreshError := none
          tokenRefreshActive := false
          baseURICache := none
          getClientInfoF := .ok "https://svc.example.com" }
        (some { Subject := "u", IssuedAt := 0, Namespace := "ns", Roles := []
                Permissions := [], Audience := some ["https://elsewhere"] })
      = some audienceMismatchMsg
    ∧ validateAudience
        { localValidationActive := true
          revokedUsers := []
          tokenRevokedF := fun _ => false
          validateJWTF := fun _ => .error "e"
          jwksRefreshError := none
          revocationListRefreshError := none
          tokenRefreshError := none
          tokenRefreshActive := false
          baseURICache := none
          getClientInfoF := .error "fetch failed" }
        (some { Subject := "u", IssuedAt := 0, Namespace := "ns", Roles := []
                Permissions := [], Audience := none })
      = none :=
  ⟨((validateAudience_spec _ _).2 ["https://svc.example.com"]
      "https://svc.example.com" rfl (Or.inl rfl)).1.mpr (by decide),
    ((validateAudience_spec _ _).2 ["https://elsewhere"]
      "https://svc.example.com" rfl (Or.inr ⟨rfl, rfl⟩)).2 (by decide),
    (validateAudience_spec _ _).1 rfl⟩

end IAM
